import Mathlib

/-!
# Verification of the `dagger-modules` Go repository

Shallow embedding of `src/golang/main.go` (the `Golang` module) and
`src/unnamed/part_001` (the `Utils` module).  Dagger client values
(`Container`, `Directory`, `File`, `Service`, `CacheVolume`) are lazy,
immutable query builders: every SDK method returns a new value extending the
receiver.  We embed them as inductive trees whose constructors are exactly the
SDK calls the repository performs.  External engine calls (service endpoint
resolution) are modeled by explicit outcome parameters; a Go `nil` pointer
dereference (panic) is modeled by `Option.none`.
-/

/-- Sharing mode of a dagger cache volume; the engine default is `Shared`. -/
inductive Dagger.CacheSharing where
  | Shared : Dagger.CacheSharing
  | Private : Dagger.CacheSharing

/-- A named cache volume, `dag.CacheVolume(name)`. -/
structure Dagger.CacheVolume where
  name : String

mutual

/-- A lazy dagger `*Directory` value. -/
inductive Dagger.Directory where
  | emptyDir : Dagger.Directory
  | containerDir : Dagger.Container → String → Dagger.Directory
  | subdir : Dagger.Directory → String → Dagger.Directory
  | gitTree : String → String → Dagger.Directory
  | withFile : Dagger.Directory → String → Dagger.File → Dagger.Directory

/-- A lazy dagger `*File` value. -/
inductive Dagger.File where
  | containerFile : Dagger.Container → String → Dagger.File

/-- A lazy dagger `*Container` value; each constructor is one SDK call. -/
inductive Dagger.Container where
  | fromImage : String → Dagger.Container
  | withMountedCache : Dagger.Container → String → Dagger.CacheVolume →
      Dagger.CacheSharing → Dagger.Container
  | withMountedDirectory : Dagger.Container → String → Dagger.Directory → Dagger.Container
  | withDirectory : Dagger.Container → String → Dagger.Directory → Dagger.Container
  | withWorkdir : Dagger.Container → String → Dagger.Container
  | withEnvVariable : Dagger.Container → String → String → Dagger.Container
  | withExec : Dagger.Container → List String → Bool → Dagger.Container
  | withServiceBinding : Dagger.Container → String → Dagger.Service → Dagger.Container
  | withExposedPort : Dagger.Container → Nat → Dagger.Container
  | withNewFile : Dagger.Container → String → Dagger.Container

/-- A lazy dagger `*Service` value, `ctr.AsService()`. -/
inductive Dagger.Service where
  | ofContainer : Dagger.Container → Dagger.Service

end

/-- All `WithExec` calls recorded in a container, oldest first, with the
`InsecureRootCapabilities` flag of each. -/
def Dagger.Container.execs : Dagger.Container → List (List String × Bool)
  | Dagger.Container.fromImage _ => []
  | Dagger.Container.withMountedCache c _ _ _ => execs c
  | Dagger.Container.withMountedDirectory c _ _ => execs c
  | Dagger.Container.withDirectory c _ _ => execs c
  | Dagger.Container.withWorkdir c _ => execs c
  | Dagger.Container.withEnvVariable c _ _ => execs c
  | Dagger.Container.withExec c args insecure => execs c ++ [(args, insecure)]
  | Dagger.Container.withServiceBinding c _ _ => execs c
  | Dagger.Container.withExposedPort c _ => execs c
  | Dagger.Container.withNewFile c _ => execs c

/-- All cache mounts recorded in a container, oldest first:
mount path, volume name, sharing mode. -/
def Dagger.Container.caches : Dagger.Container → List (String × String × Dagger.CacheSharing)
  | Dagger.Container.fromImage _ => []
  | Dagger.Container.withMountedCache c path vol sharing => caches c ++ [(path, vol.name, sharing)]
  | Dagger.Container.withMountedDirectory c _ _ => caches c
  | Dagger.Container.withDirectory c _ _ => caches c
  | Dagger.Container.withWorkdir c _ => caches c
  | Dagger.Container.withEnvVariable c _ _ => caches c
  | Dagger.Container.withExec c _ _ => caches c
  | Dagger.Container.withServiceBinding c _ _ => caches c
  | Dagger.Container.withExposedPort c _ => caches c
  | Dagger.Container.withNewFile c _ => caches c

/-- All exposed ports recorded in a container, oldest first. -/
def Dagger.Container.ports : Dagger.Container → List Nat
  | Dagger.Container.fromImage _ => []
  | Dagger.Container.withMountedCache c _ _ _ => ports c
  | Dagger.Container.withMountedDirectory c _ _ => ports c
  | Dagger.Container.withDirectory c _ _ => ports c
  | Dagger.Container.withWorkdir c _ => ports c
  | Dagger.Container.withEnvVariable c _ _ => ports c
  | Dagger.Container.withExec c _ _ => ports c
  | Dagger.Container.withServiceBinding c _ _ => ports c
  | Dagger.Container.withExposedPort c p => ports c ++ [p]
  | Dagger.Container.withNewFile c _ => ports c

/-- The base image a container was built from. -/
def Dagger.Container.image : Dagger.Container → String
  | Dagger.Container.fromImage img => img
  | Dagger.Container.withMountedCache c _ _ _ => image c
  | Dagger.Container.withMountedDirectory c _ _ => image c
  | Dagger.Container.withDirectory c _ _ => image c
  | Dagger.Container.withWorkdir c _ => image c
  | Dagger.Container.withEnvVariable c _ _ => image c
  | Dagger.Container.withExec c _ _ => image c
  | Dagger.Container.withServiceBinding c _ _ => image c
  | Dagger.Container.withExposedPort c _ => image c
  | Dagger.Container.withNewFile c _ => image c

/-- The effective value of environment variable `k` (a later
`WithEnvVariable` overrides an earlier one). -/
def Dagger.Container.envLookup : Dagger.Container → String → Option String
  | Dagger.Container.fromImage _, _ => none
  | Dagger.Container.withMountedCache c _ _ _, k => envLookup c k
  | Dagger.Container.withMountedDirectory c _ _, k => envLookup c k
  | Dagger.Container.withDirectory c _ _, k => envLookup c k
  | Dagger.Container.withWorkdir c _, k => envLookup c k
  | Dagger.Container.withEnvVariable c key v, k => if k = key then some v else envLookup c k
  | Dagger.Container.withExec c _ _, k => envLookup c k
  | Dagger.Container.withServiceBinding c _ _, k => envLookup c k
  | Dagger.Container.withExposedPort c _, k => envLookup c k
  | Dagger.Container.withNewFile c _, k => envLookup c k

/-- All service bindings recorded in a container, oldest first: alias and service. -/
def Dagger.Container.serviceBindings : Dagger.Container → List (String × Dagger.Service)
  | Dagger.Container.fromImage _ => []
  | Dagger.Container.withMountedCache c _ _ _ => serviceBindings c
  | Dagger.Container.withMountedDirectory c _ _ => serviceBindings c
  | Dagger.Container.withDirectory c _ _ => serviceBindings c
  | Dagger.Container.withWorkdir c _ => serviceBindings c
  | Dagger.Container.withEnvVariable c _ _ => serviceBindings c
  | Dagger.Container.withExec c _ _ => serviceBindings c
  | Dagger.Container.withServiceBinding c nm svc => serviceBindings c ++ [(nm, svc)]
  | Dagger.Container.withExposedPort c _ => serviceBindings c
  | Dagger.Container.withNewFile c _ => serviceBindings c

/-- All directory mounts/copies (`WithMountedDirectory` and `WithDirectory`)
recorded in a container, oldest first: target path and directory. -/
def Dagger.Container.dirMounts : Dagger.Container → List (String × Dagger.Directory)
  | Dagger.Container.fromImage _ => []
  | Dagger.Container.withMountedCache c _ _ _ => dirMounts c
  | Dagger.Container.withMountedDirectory c path d => dirMounts c ++ [(path, d)]
  | Dagger.Container.withDirectory c path d => dirMounts c ++ [(path, d)]
  | Dagger.Container.withWorkdir c _ => dirMounts c
  | Dagger.Container.withEnvVariable c _ _ => dirMounts c
  | Dagger.Container.withExec c _ _ => dirMounts c
  | Dagger.Container.withServiceBinding c _ _ => dirMounts c
  | Dagger.Container.withExposedPort c _ => dirMounts c
  | Dagger.Container.withNewFile c _ => dirMounts c

/-- The current working directory of a container (last `WithWorkdir`, if any). -/
def Dagger.Container.workdir : Dagger.Container → Option String
  | Dagger.Container.fromImage _ => none
  | Dagger.Container.withMountedCache c _ _ _ => workdir c
  | Dagger.Container.withMountedDirectory c _ _ => workdir c
  | Dagger.Container.withDirectory c _ _ => workdir c
  | Dagger.Container.withWorkdir _ path => some path
  | Dagger.Container.withEnvVariable c _ _ => workdir c
  | Dagger.Container.withExec c _ _ => workdir c
  | Dagger.Container.withServiceBinding c _ _ => workdir c
  | Dagger.Container.withExposedPort c _ => workdir c
  | Dagger.Container.withNewFile c _ => workdir c

/-- Number of SDK calls applied on top of the base image. -/
def Dagger.Container.opsCount : Dagger.Container → Nat
  | Dagger.Container.fromImage _ => 0
  | Dagger.Container.withMountedCache c _ _ _ => opsCount c + 1
  | Dagger.Container.withMountedDirectory c _ _ => opsCount c + 1
  | Dagger.Container.withDirectory c _ _ => opsCount c + 1
  | Dagger.Container.withWorkdir c _ => opsCount c + 1
  | Dagger.Container.withEnvVariable c _ _ => opsCount c + 1
  | Dagger.Container.withExec c _ _ => opsCount c + 1
  | Dagger.Container.withServiceBinding c _ _ => opsCount c + 1
  | Dagger.Container.withExposedPort c _ => opsCount c + 1
  | Dagger.Container.withNewFile c _ => opsCount c + 1

/-! ## Constants of `src/golang/main.go` (lines 14–19) -/

def DEFAULT_GO : String := "1.23.4"

def PROJ_MOUNT : String := "/src"

def LINT_IMAGE : String := "golangci/golangci-lint:latest"

def OUT_DIR : String := "/out/"

/-- The `Golang` struct (main.go lines 21–26): the mutable Build State.
Both fields are Go pointers, hence `Option` (`none` = Go `nil`). -/
structure Golang where
  Ctr : Option Dagger.Container
  Proj : Option Dagger.Directory

/-- `Service` (main.go lines 139–163): the Docker-in-Docker service descriptor.
Pure construction; the Go receiver is unused by the source, kept as `_g`. -/
def Golang.Service (_g : Golang) (dockerVersion : String) : Dagger.Service :=
  let port := 2375
  Dagger.Service.ofContainer
    ((((Dagger.Container.fromImage ("docker:" ++ dockerVersion ++ "-dind")).withMountedCache
          "/var/lib/docker" ⟨dockerVersion ++ "-docker-lib"⟩
          Dagger.CacheSharing.Private).withExposedPort port).withExec
        ["dockerd", "--host=tcp://0.0.0.0:2375", "--host=unix:///var/run/docker.sock",
          "--tls=false"]
        true)

/-- `Attach` (main.go lines 120–136).  The engine call
`dockerd.Endpoint(ctx, {Scheme: "tcp"})` is modeled by the outcome parameter
`ep` (`Except.error e` = resolution failure, `Except.ok host` = resolved
address).  The Go result pair `(*Container, error)` is returned as
`(Option Container, Option String)`; on failure the source returns
`nil, err` — the first component is `none`, not the input container. -/
def Golang.Attach (g : Golang) (container : Dagger.Container) (ep : Except String String) :
    Option Dagger.Container × Option String :=
  let dockerd := g.Service "24.0"
  match ep with
  | Except.error err => (none, some err)
  | Except.ok dockerHost =>
      (some ((container.withServiceBinding "docker" dockerd).withEnvVariable "DOCKER_HOST"
          dockerHost),
        none)

/-- `prepare` (main.go lines 275–285).  The source mounts the project at
`PROJ_MOUNT`, sets the workdir, then runs `c, err := g.Attach(ctx, c)`,
which overwrites `c` with `Attach`'s first result; on resolution failure that
result is Go `nil`, the error is only logged, and `nil` is returned (`none`
here).  A `nil` receiver `g.Ctr` or `nil` argument `g.Proj` makes the
underlying query invalid (panic / engine failure), also `none`. -/
def Golang.prepare (g : Golang) (ep : Except String String) : Option Dagger.Container :=
  match g.Ctr, g.Proj with
  | some ctr, some proj =>
      let c := (ctr.withDirectory PROJ_MOUNT proj).withWorkdir PROJ_MOUNT
      (g.Attach c ep).fst
  | _, _ => none

/-- `Base` (main.go lines 200–222).  Line 209 evaluates
`g.Proj.Directory("vendor")` — the source marks it `Hier was de crash` —
*before* the `g.Proj == nil` check on line 212, so with `Proj = none` the Go
code panics with a nil-pointer dereference (`none` here) and the defaulting
branch is unreachable.  With `Proj` present the vendor mount and the
`GOFLAGS` variable are applied twice (lines 209–210 and 217–218). -/
def Golang.Base (g : Golang) (version : String) : Option Golang :=
  let mod : Dagger.CacheVolume := ⟨"gomodcache"⟩
  let build : Dagger.CacheVolume := ⟨"gobuildcache"⟩
  let image := "golang:" ++ version
  match g.Proj with
  | none => none
  | some proj =>
      let c := ((((Dagger.Container.fromImage image).withMountedCache "/go/pkg/mod" mod
              Dagger.CacheSharing.Shared).withMountedCache "/root/.cache/go-build" build
              Dagger.CacheSharing.Shared).withMountedDirectory "/src/vendor"
            (proj.subdir "vendor")).withEnvVariable "GOFLAGS" "-mod=vendor"
      let c := (c.withMountedDirectory "/src/vendor" (proj.subdir "vendor")).withEnvVariable
          "GOFLAGS" "-mod=vendor"
      some { g with Ctr := some c }

/-- `New` (main.go lines 28–44).  Starts from `g := &Golang{}` (both fields
nil); when `ctr` is nil it calls `g.Base(DEFAULT_GO)` on that fresh state —
whose `Proj` is nil, so `Base` panics (see `Golang.Base`).  When `proj` is
nil it defaults to `ctr.Directory(PROJ_MOUNT)` after logging a warning. -/
def Golang.New (ctr : Option Dagger.Container) (proj : Option Dagger.Directory) :
    Option Golang :=
  let g : Golang := ⟨none, none⟩
  let defaulted : Option Dagger.Container :=
    match ctr with
    | none => (Golang.Base g DEFAULT_GO).bind (fun gB => gB.Ctr)
    | some c => some c
  match defaulted with
  | none => none
  | some c =>
      let g := { g with Ctr := some c }
      match proj with
      | some p => some { g with Proj := some p }
      | none => some { g with Proj := some (Dagger.Directory.containerDir c PROJ_MOUNT) }

/-- `WithProject` (main.go lines 235–238): pure setter of the project tree. -/
def Golang.WithProject (g : Golang) (dir : Dagger.Directory) : Golang :=
  { g with Proj := some dir }

/-- `WithContainer` (main.go lines 241–244): pure setter of the container. -/
def Golang.WithContainer (g : Golang) (ctr : Dagger.Container) : Golang :=
  { g with Ctr := some ctr }

/-- `Project` (main.go lines 230–232): returns `g.Ctr.Directory(PROJ_MOUNT)`
(`none` models the panic on a nil `g.Ctr`); it does not read `g.Proj`. -/
def Golang.Project (g : Golang) : Option Dagger.Directory :=
  g.Ctr.map (fun c => Dagger.Directory.containerDir c PROJ_MOUNT)

/-- `Build` (main.go lines 47–78).  `runtime.GOARCH` / `runtime.GOOS` are
host facts, passed as `hostArch` / `hostOS`; `ep` is the endpoint-resolution
outcome consumed by `prepare`.  When `prepare` returns Go `nil`, the chained
`WithEnvVariable` call panics (`none` here). -/
def Golang.Build (g : Golang) (hostArch hostOS : String) (source : Option Dagger.Directory)
    (args : List String) (arch os : String) (ep : Except String String) :
    Option Dagger.Directory :=
  let arch := if arch = "" then hostArch else arch
  let os := if os = "" then hostOS else os
  let g := match source with
    | some s => g.WithProject s
    | none => g
  let command := ["go", "build", "-o", OUT_DIR] ++ args
  (g.prepare ep).map (fun c =>
    Dagger.Directory.containerDir
      (((c.withEnvVariable "GOARCH" arch).withEnvVariable "GOOS" os).withExec command false)
      OUT_DIR)

/-- `Vulncheck` (main.go lines 165–181).  The line
`g.Ctr = g.prepare(ctx).WithExec([go install govulncheck])` replaces the
session's container handle; the scanner then runs on a second `prepare` of
the mutated state.  `ep1`/`ep2` are the two endpoint-resolution outcomes.
Returns the post-call Build State and the container whose `Stdout` is read. -/
def Golang.Vulncheck (g : Golang) (source : Option Dagger.Directory) (component : String)
    (ep1 ep2 : Except String String) : Option (Golang × Dagger.Container) :=
  let g := match source with
    | some s => g.WithProject s
    | none => g
  match g.prepare ep1 with
  | none => none
  | some c1 =>
      let g := { g with
        Ctr := some (c1.withExec ["go", "install", "golang.org/x/vuln/cmd/govulncheck@latest"]
          false) }
      match g.prepare ep2 with
      | none => none
      | some c2 => some (g, c2.withExec ["govulncheck", "-C", component] false)

/-! ## The `Utils` module, `src/unnamed/part_001` -/

/-- The `Utils` struct (part_001 line 8): empty, a method receiver only. -/
structure Utils where

/-- Engine evaluation of `Directory.Entries` for directories built from the
empty directory by `WithFile` only: the entry list in insertion order, a
`WithFile` at an existing path overwriting that entry in place.  Entries of
other directory forms depend on engine state (`none`). -/
def Dagger.Directory.entriesList : Dagger.Directory → Option (List (String × Dagger.File))
  | Dagger.Directory.emptyDir => some []
  | Dagger.Directory.withFile d path f =>
      (entriesList d).map (fun es =>
        if es.any (fun e => e.fst = path) then
          es.map (fun e => if e.fst = path then (path, f) else e)
        else es ++ [(path, f)])
  | _ => none

/-- Loop body of `Multisync` (part_001 lines 23–27), indexing from `i`:
each container writes a marker file `/syncfile`, and the aggregate directory
collects `ctr.File("/syncfile")` under the name `fmt.Sprintf("/syncfile%v", i)`
(decimal index, `Nat.repr`). -/
def Utils.multisyncLoop : Nat → List Dagger.Container → Dagger.Directory → Dagger.Directory
  | _, [], hck => hck
  | i, ctr :: rest, hck =>
      let ctr := ctr.withNewFile "/syncfile"
      let hck := hck.withFile ("/syncfile" ++ Nat.repr i)
        (Dagger.File.containerFile ctr "/syncfile")
      Utils.multisyncLoop (i + 1) rest hck

/-- `Multisync` (part_001 lines 20–32): builds the aggregate directory from
`dag.Directory()`, then forces it with `hck.Entries(ctx)` and returns only
the error of that read-back. -/
def Utils.Multisync (_m : Utils) (ctrs : List Dagger.Container) : Option String :=
  let hck := Utils.multisyncLoop 0 ctrs Dagger.Directory.emptyDir
  match hck.entriesList with
  | some _ => none
  | none => some "engine failure"

/-! ## Helper definitions for reasoning about decimal marker names -/

/-- Numeric value of a decimal digit character. -/
def charVal (c : Char) : Nat := c.toNat - 48

/-- Numeric value of a big-endian list of decimal digit characters. -/
def valChars : List Char → Nat
  | [] => 0
  | c :: cs => charVal c * 10 ^ cs.length + valChars cs

/-- The entries `Multisync` is expected to aggregate for inputs `ctrs`
starting at index `i`: the marker file of each container, keyed by index. -/
def multisyncEntries : Nat → List Dagger.Container → List (String × Dagger.File)
  | _, [] => []
  | i, ctr :: rest =>
      ("/syncfile" ++ Nat.repr i,
          Dagger.File.containerFile (ctr.withNewFile "/syncfile") "/syncfile") ::
        multisyncEntries (i + 1) rest

/-! ## Helper lemmas: `Nat.repr` is injective -/

theorem toDigitsCore_zero (n : Nat) (l : List Char) :
    Nat.toDigitsCore 10 0 n l = l := rfl

theorem toDigitsCore_succ (f n : Nat) (l : List Char) :
    Nat.toDigitsCore 10 (f + 1) n l =
      if n / 10 = 0 then Nat.digitChar (n % 10) :: l
      else Nat.toDigitsCore 10 f (n / 10) (Nat.digitChar (n % 10) :: l) := rfl

theorem toDigitsCore_append (f : Nat) : ∀ (n : Nat) (l : List Char),
    Nat.toDigitsCore 10 f n l = Nat.toDigitsCore 10 f n [] ++ l := by
  induction f with
  | zero => intro n l; rfl
  | succ f ih =>
    intro n l
    rw [toDigitsCore_succ, toDigitsCore_succ]
    by_cases h : n / 10 = 0
    · simp [h]
    · rw [if_neg h, if_neg h, ih (n / 10) (Nat.digitChar (n % 10) :: l),
        ih (n / 10) [Nat.digitChar (n % 10)]]
      simp

theorem valChars_append_singleton (xs : List Char) (c : Char) :
    valChars (xs ++ [c]) = 10 * valChars xs + charVal c := by
  induction xs with
  | nil => simp [valChars]
  | cons x xs ih =>
    simp only [List.cons_append, valChars, List.append_eq, ih, List.length_append,
      List.length_cons, List.length_nil]
    ring

theorem charVal_digitChar (d : Nat) (h : d < 10) : charVal (Nat.digitChar d) = d := by
  interval_cases d <;> decide

theorem valChars_toDigitsCore (f : Nat) : ∀ n : Nat, n < f →
    valChars (Nat.toDigitsCore 10 f n []) = n := by
  induction f with
  | zero => intro n h; omega
  | succ f ih =>
    intro n h
    rw [toDigitsCore_succ]
    have hmod : n % 10 < 10 := Nat.mod_lt _ (by omega)
    have hdm := Nat.div_add_mod n 10
    by_cases h0 : n / 10 = 0
    · rw [if_pos h0]
      simp [valChars, charVal_digitChar _ hmod]
      omega
    · rw [if_neg h0]
      have hn : 0 < n := by
        rcases Nat.eq_zero_or_pos n with h1 | h1
        · subst h1; simp at h0
        · exact h1
      have hlt : n / 10 < f := by
        have := Nat.div_lt_self hn (by omega : 1 < 10)
        omega
      rw [toDigitsCore_append, valChars_append_singleton, ih (n / 10) hlt,
        charVal_digitChar _ hmod]
      omega

theorem natRepr_injective (m n : Nat) (h : Nat.repr m = Nat.repr n) : m = n := by
  have hd : Nat.toDigitsCore 10 (m + 1) m [] = Nat.toDigitsCore 10 (n + 1) n [] := by
    have h2 := congrArg String.data h
    simpa [Nat.repr, Nat.toDigits, List.asString] using h2
  have hm := valChars_toDigitsCore (m + 1) m (Nat.lt_succ_self m)
  have hn := valChars_toDigitsCore (n + 1) n (Nat.lt_succ_self n)
  rw [hd, hn] at hm
  omega

theorem syncfileKey_injective (i j : Nat)
    (h : "/syncfile" ++ Nat.repr i = "/syncfile" ++ Nat.repr j) : i = j := by
  apply natRepr_injective
  apply String.ext
  have h2 := congrArg String.data h
  simpa [String.data_append] using h2

/-! ## Helper lemmas: the `Multisync` aggregate -/

theorem multisyncLoop_entriesList (ctrs : List Dagger.Container) :
    ∀ (i : Nat) (hck : Dagger.Directory) (es : List (String × Dagger.File)),
      hck.entriesList = some es →
      (∀ e ∈ es, ∃ j, j < i ∧ e.fst = "/syncfile" ++ Nat.repr j) →
      (Utils.multisyncLoop i ctrs hck).entriesList = some (es ++ multisyncEntries i ctrs) := by
  induction ctrs with
  | nil =>
    intro i hck es h _
    simpa [Utils.multisyncLoop, multisyncEntries] using h
  | cons ctr rest ih =>
    intro i hck es h hkeys
    have hstep : Utils.multisyncLoop i (ctr :: rest) hck =
        Utils.multisyncLoop (i + 1) rest
          (hck.withFile ("/syncfile" ++ Nat.repr i)
            (Dagger.File.containerFile (ctr.withNewFile "/syncfile") "/syncfile")) := rfl
    have hany : es.any (fun e => e.fst = "/syncfile" ++ Nat.repr i) = false := by
      rw [List.any_eq_false]
      intro e he
      rcases hkeys e he with ⟨j, hj, hkey⟩
      simp only [hkey, decide_eq_true_eq]
      intro hEq
      have := syncfileKey_injective j i hEq
      omega
    have hnew : (hck.withFile ("/syncfile" ++ Nat.repr i)
          (Dagger.File.containerFile (ctr.withNewFile "/syncfile") "/syncfile")).entriesList =
        some (es ++ [("/syncfile" ++ Nat.repr i,
          Dagger.File.containerFile (ctr.withNewFile "/syncfile") "/syncfile")]) := by
      simp [Dagger.Directory.entriesList, h, hany]
    have hkeys2 : ∀ e ∈ es ++ [("/syncfile" ++ Nat.repr i,
          Dagger.File.containerFile (ctr.withNewFile "/syncfile") "/syncfile")],
        ∃ j, j < i + 1 ∧ e.fst = "/syncfile" ++ Nat.repr j := by
      intro e he
      rcases List.mem_append.mp he with he | he
      · rcases hkeys e he with ⟨j, hj, hkey⟩
        exact ⟨j, by omega, hkey⟩
      · rw [List.mem_singleton] at he
        subst he
        exact ⟨i, by omega, rfl⟩
    rw [hstep, ih (i + 1) _ _ hnew hkeys2]
    simp [multisyncEntries]

theorem multisyncEntries_length (ctrs : List Dagger.Container) :
    ∀ i, (multisyncEntries i ctrs).length = ctrs.length := by
  induction ctrs with
  | nil => intro i; rfl
  | cons ctr rest ih => intro i; simp [multisyncEntries, ih]

theorem multisyncEntries_get? (ctrs : List Dagger.Container) :
    ∀ i k, (multisyncEntries i ctrs).get? k =
      (ctrs.get? k).map (fun ctr =>
        ("/syncfile" ++ Nat.repr (i + k),
          Dagger.File.containerFile (ctr.withNewFile "/syncfile") "/syncfile")) := by
  induction ctrs with
  | nil => intro i k; simp [multisyncEntries]
  | cons ctr rest ih =>
    intro i k
    cases k with
    | zero => simp [multisyncEntries]
    | succ k =>
      have harith : i + 1 + k = i + (k + 1) := by omega
      simp only [multisyncEntries, List.get?_cons_succ, ih (i + 1) k, harith]

/-! ## Claim theorems -/

/-- C1: the Preparation Pipeline does *not* continue with the unattached but
otherwise fully prepared container when endpoint resolution fails.  Evaluating
`prepare` on a Build State with a container and a project tree but a failing
endpoint resolution: `c, err := g.Attach(ctx, c)` overwrites `c` with the
`nil` returned by `Attach`, the error is only logged, and `nil` (`none`) is
returned — not a container with the tree mounted at `/src` and the working
directory set. -/
theorem C1_prepare_failure_returns_nil :
    Golang.prepare
      ⟨some (Dagger.Container.fromImage "golang:1.23.4"),
        some (Dagger.Directory.gitTree "github.com/example/proj" "main")⟩
      (Except.error "endpoint resolution failed") = none := rfl

/-- C2 counterexample: on endpoint-resolution failure, `Attach` returns the
Go pair `(nil, err)` — the container component is `nil`, not the unmodified
input container, at this concrete input. -/
theorem C2_attach_failure_counterexample :
    (Golang.Attach ⟨none, none⟩ (Dagger.Container.fromImage "golang:1.23.4")
        (Except.error "endpoint resolution failed")).fst ≠
      some (Dagger.Container.fromImage "golang:1.23.4") := by
  intro h
  exact Option.noConfusion h

/-- C2 (amended): `Attach` either fails, returning a `nil` container together
with the resolution error — the input container value is untouched but is not
what is returned — or succeeds, returning a new container that extends the
input `c` with exactly the service binding named `docker` and the
`DOCKER_HOST` variable set to the resolved endpoint; in both cases the input
container value itself is never mutated (all SDK calls return new values). -/
theorem C2_attach_no_partial_mutation (g : Golang) (c : Dagger.Container)
    (err host : String) :
    Golang.Attach g c (Except.error err) = (none, some err) ∧
    ∃ r, Golang.Attach g c (Except.ok host) = (some r, none) ∧
      r = (c.withServiceBinding "docker" (g.Service "24.0")).withEnvVariable
        "DOCKER_HOST" host ∧
      r.serviceBindings = c.serviceBindings ++ [("docker", g.Service "24.0")] ∧
      r.envLookup "DOCKER_HOST" = some host ∧
      r.execs = c.execs := by
  refine ⟨rfl, _, rfl, rfl, rfl, ?_, rfl⟩
  simp [Dagger.Container.envLookup]

/-- C3: `New` does not always produce a Build State with a defaulted container
handle: when the caller passes no container, `New` calls `g.Base(DEFAULT_GO)`
on a state whose project tree is still nil, and `Base` dereferences `g.Proj`
before its nil check (`Hier was de crash`), so the call panics instead of
defaulting — with or without a caller-supplied project tree. -/
theorem C3_new_nil_container_panics :
    Golang.New none none = none ∧
    Golang.New none (some (Dagger.Directory.gitTree "github.com/example/proj" "main")) =
      none :=
  ⟨rfl, rfl⟩

/-- C4: the vendor-mounting `Base`, invoked with no project tree bound, does
fail: line 209 evaluates `g.Proj.Directory("vendor")` (marked
`Hier was de crash` in the source) before the `g.Proj == nil` check on line
212, so the warning-and-default branch is unreachable and the call panics
with a nil-pointer dereference. -/
theorem C4_base_nil_proj_panics :
    Golang.Base ⟨some (Dagger.Container.fromImage "golang:1.23.4"), none⟩ "1.23.4" =
      none := rfl

/-- C5: `Service` is pure — two calls with the same version, from any two
Build States, produce structurally identical descriptors — and the descriptor
has base image `docker:<v>-dind`, exactly one private cache volume keyed
`<v>-docker-lib` mounted at `/var/lib/docker`, exactly one exposed port 2375,
and a single startup command running `dockerd` with TLS disabled on a TCP
socket and a Unix socket, with insecure root capabilities. -/
theorem C5_service_pure_descriptor (g1 g2 : Golang) (v : String) :
    Golang.Service g1 v = Golang.Service g2 v ∧
    ∃ c, Golang.Service g1 v = Dagger.Service.ofContainer c ∧
      c.image = "docker:" ++ v ++ "-dind" ∧
      c.caches = [("/var/lib/docker", v ++ "-docker-lib", Dagger.CacheSharing.Private)] ∧
      c.ports = [2375] ∧
      c.execs = [(["dockerd", "--host=tcp://0.0.0.0:2375",
        "--host=unix:///var/run/docker.sock", "--tls=false"], true)] := by
  refine ⟨rfl, _, rfl, rfl, rfl, rfl, rfl⟩

/-- C6: for every pair of version strings (the same one included), the
containers produced by `Base` on a state with a bound project tree reference
exactly the two cache volumes keyed by the fixed names `gomodcache` and
`gobuildcache`, independent of the version. -/
theorem C6_base_cache_volumes (c : Option Dagger.Container) (p : Dagger.Directory)
    (v1 v2 : String) :
    ∃ g1 g2 c1 c2,
      Golang.Base ⟨c, some p⟩ v1 = some g1 ∧ g1.Ctr = some c1 ∧
      Golang.Base ⟨c, some p⟩ v2 = some g2 ∧ g2.Ctr = some c2 ∧
      c1.caches = [("/go/pkg/mod", "gomodcache", Dagger.CacheSharing.Shared),
        ("/root/.cache/go-build", "gobuildcache", Dagger.CacheSharing.Shared)] ∧
      c1.caches = c2.caches := by
  refine ⟨_, _, _, _, rfl, rfl, rfl, rfl, rfl, rfl⟩

/-- C7: when endpoint resolution succeeds, `Build` executes exactly
`["go", "build", "-o", "/out/"] ++ args` on the container produced by the
Preparation Pipeline, with `GOARCH` and `GOOS` set (to the caller's values,
or to the host's `runtime.GOARCH` / `runtime.GOOS` when empty) before the
exec, and returns the directory at `/out/` of that container. -/
theorem C7_build_command_env (c : Dagger.Container) (p : Dagger.Directory)
    (source : Option Dagger.Directory) (args : List String)
    (hostArch hostOS arch os host : String) :
    ∃ cPrep cFinal,
      Golang.prepare ⟨some c, some (source.getD p)⟩ (Except.ok host) = some cPrep ∧
      Golang.Build ⟨some c, some p⟩ hostArch hostOS source args arch os (Except.ok host) =
        some (Dagger.Directory.containerDir cFinal OUT_DIR) ∧
      cFinal = ((cPrep.withEnvVariable "GOARCH"
            (if arch = "" then hostArch else arch)).withEnvVariable "GOOS"
            (if os = "" then hostOS else os)).withExec
          (["go", "build", "-o", OUT_DIR] ++ args) false ∧
      cFinal.execs = cPrep.execs ++ [(["go", "build", "-o", "/out/"] ++ args, false)] ∧
      cFinal.envLookup "GOARCH" = some (if arch = "" then hostArch else arch) ∧
      cFinal.envLookup "GOOS" = some (if os = "" then hostOS else os) := by
  cases source with
  | none =>
    refine ⟨_, _, rfl, rfl, rfl, rfl, ?_, ?_⟩
    · simp [Dagger.Container.envLookup]
    · simp [Dagger.Container.envLookup]
  | some s =>
    refine ⟨_, _, rfl, rfl, rfl, rfl, ?_, ?_⟩
    · simp [Dagger.Container.envLookup]
    · simp [Dagger.Container.envLookup]

/-- C8: `Vulncheck` first installs the scanner with
`go install golang.org/x/vuln/cmd/govulncheck@latest` on a freshly prepared
container and stores that container back into the session's Build State —
the post-call `Ctr` is the prepared container with the install exec appended
and differs from the pre-call `Ctr` — before running `govulncheck` on a
second preparation of the mutated state. -/
theorem C8_vulncheck_mutates_state (c : Dagger.Container) (p : Dagger.Directory)
    (component h1 h2 : String) :
    ∃ cPrep g2 out,
      Golang.prepare ⟨some c, some p⟩ (Except.ok h1) = some cPrep ∧
      Golang.Vulncheck ⟨some c, some p⟩ none component (Except.ok h1) (Except.ok h2) =
        some (g2, out) ∧
      g2.Ctr = some (cPrep.withExec
        ["go", "install", "golang.org/x/vuln/cmd/govulncheck@latest"] false) ∧
      g2.Proj = some p ∧
      g2.Ctr ≠ some c ∧
      out.execs.getLast? = some (["govulncheck", "-C", component], false) := by
  refine ⟨_, _, _, rfl, rfl, rfl, rfl, ?_, ?_⟩
  · intro hEq
    have h' := Option.some.inj hEq
    have hc := congrArg Dagger.Container.opsCount h'
    simp only [Dagger.Container.opsCount] at hc
    omega
  · simp [Dagger.Container.execs, List.getLast?_concat]

/-- C9: for every list of containers, the aggregate directory built by
`Multisync` evaluates to exactly one entry per input container, in index
order: entry `k` is the marker file `/syncfile` of input `k` after its write,
stored under the name `/syncfile<k>`; the read-back therefore depends on
every per-container write, and `Multisync` returns no error — in particular
an empty aggregate and no error for an empty input list. -/
theorem C9_multisync_aggregate (m : Utils) (ctrs : List Dagger.Container) :
    ∃ es, (Utils.multisyncLoop 0 ctrs Dagger.Directory.emptyDir).entriesList = some es ∧
      es.length = ctrs.length ∧
      (∀ k : Nat, es.get? k = (ctrs.get? k).map (fun ctr =>
        ("/syncfile" ++ Nat.repr k,
          Dagger.File.containerFile (ctr.withNewFile "/syncfile") "/syncfile"))) ∧
      Utils.Multisync m ctrs = none := by
  have h0 : (Dagger.Directory.emptyDir).entriesList = some [] := rfl
  have hkeys : ∀ e ∈ ([] : List (String × Dagger.File)),
      ∃ j, j < 0 ∧ e.fst = "/syncfile" ++ Nat.repr j := by
    intro e he
    exact absurd he (List.not_mem_nil e)
  have hmain := multisyncLoop_entriesList ctrs 0 Dagger.Directory.emptyDir [] h0 hkeys
  rw [List.nil_append] at hmain
  refine ⟨multisyncEntries 0 ctrs, hmain, multisyncEntries_length ctrs 0, ?_, ?_⟩
  · intro k
    simpa using multisyncEntries_get? ctrs 0 k
  · simp [Utils.Multisync, hmain]

/-- C10: the `Project` accessor returns the directory at the fixed mount path
`/src` of the current container handle and ignores the project-tree field:
immediately after `WithProject(d)` it is unchanged and depends only on
`g.Ctr`. -/
theorem C10_project_accessor (g : Golang) (d : Dagger.Directory) :
    Golang.Project (Golang.WithProject g d) = Golang.Project g ∧
    Golang.Project g = g.Ctr.map (fun c => Dagger.Directory.containerDir c PROJ_MOUNT) :=
  ⟨rfl, rfl⟩
